import Mathlib

/-!
Verification development for the retrieval-routing orchestrator of the
Agentic Video Game repository.

The embedding follows the Python sources:
  - `lib/state_machine.py` : `AgentState`, `ConversationTurn`, `SessionState`,
    `StateMachine` (transition table, `can_transition`, `transition`,
    `add_turn`, `get_context`);
  - `lib/tools.py` : `RetrievalEvaluationTool.evaluate_retrieval` (the
    confidence evaluator); the retrieval and web-search tools are external
    capabilities and are modelled as oracle inputs;
  - `lib/agents.py` : `VideoGameAgent.process_query` (the orchestrator) and
    `VideoGameAgent.get_session_summary`.

Numeric distances are modelled as rationals.  Timestamps and session ids are
produced by the system clock in the source; they are inert strings here and
are threaded through unchanged.
-/

namespace AgenticVideoGame

/-- The closed state enumeration of `lib/state_machine.py` (`AgentState`). -/
inductive AgentState where
  | IDLE
  | RETRIEVING
  | EVALUATING
  | SEARCHING_WEB
  | PROCESSING
  | COMPLETE
  | ERROR
deriving DecidableEq, Inhabited, Repr

/-- The `turn.retrieval_results` dictionary built in `process_query`. -/
structure RetrievalResults where
  documents : List String
  distances : List ℚ
  num_results : Nat
deriving DecidableEq, Inhabited, Repr

/-- The `ConversationTurn` dataclass of `lib/state_machine.py`. -/
structure ConversationTurn where
  turn_id : Nat
  query : String
  timestamp : String
  agent_state : AgentState
  retrieval_results : Option RetrievalResults
  confidence : Option String
  web_search_used : Bool
  final_answer : Option String
  source : Option String
  reasoning : Option String
deriving DecidableEq, Inhabited, Repr

/-- The `SessionState` dataclass of `lib/state_machine.py`. -/
structure SessionState where
  session_id : String
  created_at : String
  current_state : AgentState
  conversation_history : List ConversationTurn
  turn_count : Nat
deriving DecidableEq, Inhabited, Repr

/-- `SessionState.add_turn`: append the turn and increment `turn_count`. -/
def SessionState.add_turn (s : SessionState) (turn : ConversationTurn) : SessionState :=
  { s with
    conversation_history := s.conversation_history ++ [turn]
    turn_count := s.turn_count + 1 }

/-- `SessionState.transition_state`: the sole mutator of `current_state`. -/
def SessionState.transition_state (s : SessionState) (new_state : AgentState) : SessionState :=
  { s with current_state := new_state }

/-- `SessionState.get_context`, with the Python method's read of the session
made explicit by returning the session alongside the digest string.  The
source iterates over `conversation_history[-3:]` and skips the answer line
when `final_answer` is falsy (`None` or the empty string). -/
def SessionState.get_context (s : SessionState) : String × SessionState :=
  let text :=
    if s.conversation_history.isEmpty then
      "No previous conversation history."
    else
      (s.conversation_history.drop (s.conversation_history.length - 3)).foldl
        (fun acc turn =>
          acc ++ "\nTurn " ++ toString turn.turn_id ++ ": " ++ turn.query ++ "\n" ++
            (if turn.final_answer.getD "" = "" then ""
             else "Answer: " ++ turn.final_answer.getD "" ++ "\n"))
        "Previous conversation turns:\n"
  (text, s)

/-- `StateMachine.VALID_TRANSITIONS` of `lib/state_machine.py`, the table of
allowed edges.  Every state has an entry, so the Python `dict.get(_, [])`
default is never exercised. -/
def VALID_TRANSITIONS : AgentState → List AgentState
  | .IDLE => [.RETRIEVING]
  | .RETRIEVING => [.EVALUATING, .ERROR]
  | .EVALUATING => [.SEARCHING_WEB, .PROCESSING, .ERROR]
  | .SEARCHING_WEB => [.PROCESSING, .ERROR]
  | .PROCESSING => [.COMPLETE, .ERROR]
  | .COMPLETE => [.IDLE]
  | .ERROR => [.IDLE]

/-- `StateMachine.can_transition`: membership of the target in the table row
of the source state. -/
def can_transition (from_state to_state : AgentState) : Bool :=
  decide (to_state ∈ VALID_TRANSITIONS from_state)

/-- `StateMachine.transition`: commit the new state and return `true` when the
move is legal, otherwise leave the session unchanged and return `false`.  The
machine owns exactly one session, so the session is the machine state. -/
def StateMachine.transition (session : SessionState) (new_state : AgentState) :
    Bool × SessionState :=
  if can_transition session.current_state new_state then
    (true, session.transition_state new_state)
  else
    (false, session)

/-- `StateMachine.__init__`: a fresh session in `IDLE` with empty history,
with the clock-derived id and timestamp taken as parameters. -/
def mkSession (sid created : String) : SessionState :=
  { session_id := sid
    created_at := created
    current_state := AgentState.IDLE
    conversation_history := []
    turn_count := 0 }

/-- The evaluation dictionary returned by
`RetrievalEvaluationTool.evaluate_retrieval`. -/
structure EvaluationResult where
  confidence : String
  score : ℚ
  rationale : String
deriving DecidableEq, Inhabited, Repr

/-- `RetrievalEvaluationTool.HIGH_CONFIDENCE_THRESHOLD`, the source constant
`0.65`. -/
def HIGH_CONFIDENCE_THRESHOLD : ℚ := mkRat 65 100

/-- `RetrievalEvaluationTool.MEDIUM_CONFIDENCE_THRESHOLD`, the source constant
`0.75`. -/
def MEDIUM_CONFIDENCE_THRESHOLD : ℚ := mkRat 75 100

/-- Python list slice `l[:n]` for an integer bound `n`: a nonnegative bound
takes the first `n` elements (clamped at the length), a negative bound drops
the last `-n` elements. -/
def pyTakeSlice (l : List ℚ) (n : Int) : List ℚ :=
  if 0 ≤ n then l.take n.toNat
  else l.take (l.length - (-n).toNat)

/-- `RetrievalEvaluationTool.evaluate_retrieval` of `lib/tools.py`.  The
Python formatting `score:.3f` inside the rationale strings is rendered with
`toString`.  The source defaults are `num_results = 3`, `use_average =
False`. -/
def evaluate_retrieval (distances : List ℚ) (num_results : Int) (use_average : Bool) :
    EvaluationResult :=
  if distances = [] then
    { confidence := "LOW"
      score := 1
      rationale := "No results found in database" }
  else
    let score : ℚ :=
      if use_average then
        (pyTakeSlice distances num_results).sum /
          ((min (distances.length : Int) num_results : Int) : ℚ)
      else
        distances.headI
    if score < HIGH_CONFIDENCE_THRESHOLD then
      { confidence := "HIGH"
        score := score
        rationale := "Strong match found (distance: " ++ toString score ++ ")" }
    else if score < MEDIUM_CONFIDENCE_THRESHOLD then
      { confidence := "MEDIUM"
        score := score
        rationale := "Moderate match found (distance: " ++ toString score ++ ")" }
    else
      { confidence := "LOW"
        score := score
        rationale := "Weak or no match (distance: " ++ toString score ++ ")" }

/-- One web-search hit, with the `content` and `title` fields the orchestrator
reads (the external interface guarantees both). -/
structure WebResult where
  content : String
  title : String
deriving DecidableEq, Inhabited, Repr

/-- The dictionary returned by `WebSearchTool.game_web_search`: a success flag
and the ordered result list (empty on failure). -/
structure SearchResponse where
  success : Bool
  results : List WebResult
deriving DecidableEq, Inhabited, Repr

/-- The external-capability inputs consumed by one `process_query` call: the
`(documents, distances)` pair returned by `GameRetrievalTool.retrieve_game`
and the response `WebSearchTool.game_web_search` would return if consulted. -/
structure QueryOracle where
  documents : List String
  distances : List ℚ
  search : SearchResponse
deriving DecidableEq, Inhabited, Repr

/-- The `retrieval_details` sub-dictionary of the response payload. -/
structure RetrievalDetails where
  num_candidates_found : Nat
  best_score : Option ℚ
deriving DecidableEq, Inhabited, Repr

/-- The response dictionary returned by `VideoGameAgent.process_query`. -/
structure Response where
  turn_id : Nat
  query : String
  answer : String
  confidence : String
  source : String
  web_search_used : Bool
  reasoning : String
  retrieval_details : RetrievalDetails
deriving DecidableEq, Inhabited, Repr

/-- The full effect of one `process_query` call: the returned response, the
session after the call, and the sequence of turn snapshots, one per mutation
of the in-flight `ConversationTurn` object, in program order. -/
structure ProcessOutcome where
  response : Response
  session : SessionState
  turn_trace : List ConversationTurn
deriving DecidableEq, Inhabited, Repr

/-- Lines 91-98 of `lib/agents.py`: transition to `COMPLETE`, set
`final_answer`, `source`, `web_search_used` and the joined `reasoning` on the
turn (one snapshot per assignment), append the turn to the ledger, and
transition back to `IDLE`.  Returns the session after these steps and the
snapshots in order. -/
def finalize_turn (session : SessionState) (turn : ConversationTurn)
    (final_answer source : String) (web_search_used : Bool) (log : List String) :
    SessionState × List ConversationTurn :=
  let sC := (StateMachine.transition session AgentState.COMPLETE).2
  let t1 := { turn with agent_state := AgentState.COMPLETE }
  let t2 := { t1 with final_answer := some final_answer }
  let t3 := { t2 with source := some source }
  let t4 := { t3 with web_search_used := web_search_used }
  let t5 := { t4 with reasoning := some (String.intercalate "\n" log) }
  let sAdded := sC.add_turn t5
  let sIdle := (StateMachine.transition sAdded AgentState.IDLE).2
  (sIdle, [t1, t2, t3, t4, t5])

/-- `VideoGameAgent.process_query` of `lib/agents.py`, with the two external
calls supplied by `oracle` and the creation timestamp inert.  The Python
`confidence == "HIGH" and documents` truthiness test becomes the conjunction
with non-emptiness, and `f"...{score:.3f}"` is rendered with `toString`. -/
def process_query (session : SessionState) (user_query : String) (oracle : QueryOracle) :
    ProcessOutcome :=
  let turn_id := session.turn_count + 1
  let turn0 : ConversationTurn :=
    { turn_id := turn_id
      query := user_query
      timestamp := ""
      agent_state := AgentState.IDLE
      retrieval_results := none
      confidence := none
      web_search_used := false
      final_answer := none
      source := none
      reasoning := some "" }
  let log1 : List String := ["🔍 Step 1: Attempting retrieval from local game database..."]
  let s1 := (StateMachine.transition session AgentState.RETRIEVING).2
  let turn1 := { turn0 with agent_state := AgentState.RETRIEVING }
  let documents := oracle.documents
  let distances := oracle.distances
  let log2 := log1 ++ ["   Retrieved " ++ toString documents.length ++ " candidates from database"]
  let turn2 := { turn1 with
    retrieval_results := some
      { documents := documents, distances := distances, num_results := documents.length } }
  let log3 := log2 ++ ["⚖️ Step 2: Evaluating retrieval confidence..."]
  let s2 := (StateMachine.transition s1 AgentState.EVALUATING).2
  let turn3 := { turn2 with agent_state := AgentState.EVALUATING }
  let evaluation := evaluate_retrieval distances 3 false
  let confidence := evaluation.confidence
  let score := evaluation.score
  let log4 := log3 ++
    ["   Confidence: " ++ confidence ++ " (score: " ++ toString score ++ ")",
     "   Rationale: " ++ evaluation.rationale]
  let turn4 := { turn3 with confidence := some confidence }
  if confidence = "HIGH" ∧ documents ≠ [] then
    let log5 := log4 ++ ["✓ High confidence in local results - Using database answer"]
    let s3 := (StateMachine.transition s2 AgentState.PROCESSING).2
    let turn5 := { turn4 with agent_state := AgentState.PROCESSING }
    let final_answer := documents.headI
    let fin := finalize_turn s3 turn5 final_answer "Local Database" false log5
    { response :=
        { turn_id := turn_id
          query := user_query
          answer := final_answer
          confidence := confidence
          source := "Local Database"
          web_search_used := false
          reasoning := String.intercalate "\n" log5
          retrieval_details :=
            { num_candidates_found := documents.length
              best_score := if distances ≠ [] then some score else none } }
      session := fin.1
      turn_trace := [turn0, turn1, turn2, turn3, turn4, turn5] ++ fin.2 }
  else
    let log5 := log4 ++
      ["✗ Low/Medium confidence - Initiating web search fallback...",
       "🌐 Step 3: Searching the web for information..."]
    let s3 := (StateMachine.transition s2 AgentState.SEARCHING_WEB).2
    let turn5 := { turn4 with agent_state := AgentState.SEARCHING_WEB }
    let search_results := oracle.search
    if search_results.success ∧ search_results.results ≠ [] then
      let first := search_results.results.headI
      let final_answer := first.content
      let source := "Web Search (Tavily) - " ++ first.title
      let log6 := log5 ++ ["   Found web result: " ++ first.title]
      let s4 := (StateMachine.transition s3 AgentState.PROCESSING).2
      let turn6 := { turn5 with agent_state := AgentState.PROCESSING }
      let fin := finalize_turn s4 turn6 final_answer source true log6
      { response :=
          { turn_id := turn_id
            query := user_query
            answer := final_answer
            confidence := confidence
            source := source
            web_search_used := true
            reasoning := String.intercalate "\n" log6
            retrieval_details :=
              { num_candidates_found := documents.length
                best_score := if distances ≠ [] then some score else none } }
        session := fin.1
        turn_trace := [turn0, turn1, turn2, turn3, turn4, turn5, turn6] ++ fin.2 }
    else
      let final_answer := "No information found in local database or web search."
      let source := "No Source"
      let log6 := log5 ++ ["   ✗ No results found in web search"]
      let s4 := (StateMachine.transition s3 AgentState.PROCESSING).2
      let turn6 := { turn5 with agent_state := AgentState.PROCESSING }
      let fin := finalize_turn s4 turn6 final_answer source false log6
      { response :=
          { turn_id := turn_id
            query := user_query
            answer := final_answer
            confidence := confidence
            source := source
            web_search_used := false
            reasoning := String.intercalate "\n" log6
            retrieval_details :=
              { num_candidates_found := documents.length
                best_score := if distances ≠ [] then some score else none } }
        session := fin.1
        turn_trace := [turn0, turn1, turn2, turn3, turn4, turn5, turn6] ++ fin.2 }

/-- The per-turn entry of the session-summary payload. -/
structure TurnSummary where
  turn_id : Nat
  query : String
  source : Option String
  web_search_used : Bool
deriving DecidableEq, Inhabited, Repr

/-- The session-summary payload of `VideoGameAgent.get_session_summary`. -/
structure SessionSummary where
  session_id : String
  created_at : String
  turns_completed : Nat
  conversation_history : List TurnSummary
deriving DecidableEq, Inhabited, Repr

/-- `VideoGameAgent.get_session_summary`, with the read of the session made
explicit by returning the session alongside the payload. -/
def get_session_summary (s : SessionState) : SessionSummary × SessionState :=
  ({ session_id := s.session_id
     created_at := s.created_at
     turns_completed := s.turn_count
     conversation_history := s.conversation_history.map (fun turn =>
       { turn_id := turn.turn_id
         query := turn.query
         source := turn.source
         web_search_used := turn.web_search_used }) }, s)

/-- Sequential driving of one session through a list of queries, each with its
oracle inputs: the repeated `process_query` calls of one interactive session. -/
def run_queries (s : SessionState) : List (String × QueryOracle) → SessionState
  | [] => s
  | q :: rest => run_queries (process_query s q.1 q.2).session rest

/-- Claimed immutability of the finalized fields between consecutive turn
snapshots: a field that is set never changes again. -/
def fieldStable (t u : ConversationTurn) : Prop :=
  (t.final_answer ≠ none → u.final_answer = t.final_answer) ∧
  (t.source ≠ none → u.source = t.source) ∧
  (t.confidence ≠ none → u.confidence = t.confidence)

/-- Confidence computed from the minimum of the distances, following the
claim wording for the evaluator (to be compared with `evaluate_retrieval`,
which reads the first distance). -/
def confidence_from_min (d : List ℚ) : String :=
  let m := d.foldr min d.headI
  if m < HIGH_CONFIDENCE_THRESHOLD then "HIGH"
  else if m < MEDIUM_CONFIDENCE_THRESHOLD then "MEDIUM"
  else "LOW"

/-- A sample fresh session with inert id and timestamp. -/
def sessionA : SessionState := mkSession "session_20241001_000000" "2024-10-01T00:00:00"

/-- Oracle inputs with a strong local match: one document at distance `2/5`. -/
def oracleLocal : QueryOracle :=
  { documents := ["Title: Chrono Trigger. Platform: SNES."]
    distances := [mkRat 2 5, mkRat 4 5]
    search := { success := true, results := [] } }

/-- Oracle inputs with a weak local match and a successful web search. -/
def oracleWebOk : QueryOracle :=
  { documents := []
    distances := [mkRat 9 10]
    search := { success := true, results := [{ content := "X", title := "Y" }] } }

/-- Oracle inputs where both retrieval and web search come back empty. -/
def oracleNoResults : QueryOracle :=
  { documents := []
    distances := []
    search := { success := false, results := [] } }

/-! ### Helper lemmas about the evaluator -/

/-- With the source defaults (`num_results = 3`, `use_average = false`) the
evaluator classifies a non-empty list by its first distance. -/
theorem evaluate_retrieval_cons_default (x : ℚ) (rest : List ℚ) :
    evaluate_retrieval (x :: rest) 3 false =
      if x < HIGH_CONFIDENCE_THRESHOLD then
        { confidence := "HIGH", score := x
          rationale := "Strong match found (distance: " ++ toString x ++ ")" }
      else if x < MEDIUM_CONFIDENCE_THRESHOLD then
        { confidence := "MEDIUM", score := x
          rationale := "Moderate match found (distance: " ++ toString x ++ ")" }
      else
        { confidence := "LOW", score := x
          rationale := "Weak or no match (distance: " ++ toString x ++ ")" } := by
  simp [evaluate_retrieval]

/-- Under `use_average` the evaluator's score is the slice sum divided by
`min(length, num_results)`, whenever the list is non-empty. -/
theorem evaluate_retrieval_score_average (d : List ℚ) (n : Int) (h : d ≠ []) :
    (evaluate_retrieval d n true).score =
      (pyTakeSlice d n).sum / ((min (d.length : Int) n : Int) : ℚ) := by
  simp only [evaluate_retrieval, if_neg h, if_true]
  split
  · rfl
  · split <;> rfl

/-! ### C2 -/

/-- Claim C2 counterexample: on the unsorted distance list `[9/10, 1/10]` the
minimum is `1/10`, which is below the HIGH threshold, yet the evaluator (which
reads the first distance, `9/10`) returns LOW, not HIGH. -/
theorem C2_counterexample :
    ([mkRat 9 10, mkRat 1 10] : List ℚ).foldr min
        ([mkRat 9 10, mkRat 1 10] : List ℚ).headI = mkRat 1 10 ∧
    mkRat 1 10 < HIGH_CONFIDENCE_THRESHOLD ∧
    confidence_from_min [mkRat 9 10, mkRat 1 10] = "HIGH" ∧
    (evaluate_retrieval [mkRat 9 10, mkRat 1 10] 3 false).confidence ≠ "HIGH" ∧
    (evaluate_retrieval [mkRat 9 10, mkRat 1 10] 3 false).confidence = "LOW" := by
  decide

/-- Claim C2 (amended): for every non-empty distance list, with the default
arguments the evaluator returns HIGH iff the first distance is below `0.65`,
MEDIUM iff it lies in `[0.65, 0.75)`, and LOW iff it is at least `0.75` — the
score is the first distance, not the minimum. -/
theorem C2_first_distance_thresholds (d : List ℚ) (h : d ≠ []) :
    ((evaluate_retrieval d 3 false).confidence = "HIGH" ↔
        d.headI < HIGH_CONFIDENCE_THRESHOLD) ∧
    ((evaluate_retrieval d 3 false).confidence = "MEDIUM" ↔
        HIGH_CONFIDENCE_THRESHOLD ≤ d.headI ∧ d.headI < MEDIUM_CONFIDENCE_THRESHOLD) ∧
    ((evaluate_retrieval d 3 false).confidence = "LOW" ↔
        MEDIUM_CONFIDENCE_THRESHOLD ≤ d.headI) := by
  have hHM : HIGH_CONFIDENCE_THRESHOLD < MEDIUM_CONFIDENCE_THRESHOLD := by decide
  match d, h with
  | x :: rest, _ =>
    rw [evaluate_retrieval_cons_default]
    have hHM' : ("HIGH" : String) ≠ "MEDIUM" := by decide
    have hHL : ("HIGH" : String) ≠ "LOW" := by decide
    have hMH : ("MEDIUM" : String) ≠ "HIGH" := by decide
    have hML : ("MEDIUM" : String) ≠ "LOW" := by decide
    have hLH : ("LOW" : String) ≠ "HIGH" := by decide
    have hLM : ("LOW" : String) ≠ "MEDIUM" := by decide
    rcases lt_or_le x HIGH_CONFIDENCE_THRESHOLD with h1 | h1
    · rw [if_pos h1]
      exact ⟨⟨fun _ => h1, fun _ => rfl⟩,
        ⟨fun hc => absurd hc hHM', fun hx => absurd h1 (not_lt.mpr hx.1)⟩,
        ⟨fun hc => absurd hc hHL, fun hx => absurd (h1.trans hHM) (not_lt.mpr hx)⟩⟩
    · rw [if_neg (not_lt.mpr h1)]
      rcases lt_or_le x MEDIUM_CONFIDENCE_THRESHOLD with h2 | h2
      · rw [if_pos h2]
        exact ⟨⟨fun hc => absurd hc hMH, fun hx => absurd hx (not_lt.mpr h1)⟩,
          ⟨fun _ => ⟨h1, h2⟩, fun _ => rfl⟩,
          ⟨fun hc => absurd hc hML, fun hx => absurd h2 (not_lt.mpr hx)⟩⟩
      · rw [if_neg (not_lt.mpr h2)]
        exact ⟨⟨fun hc => absurd hc hLH,
            fun hx => absurd hx (not_lt.mpr (hHM.le.trans h2))⟩,
          ⟨fun hc => absurd hc hLM, fun hx => absurd hx.2 (not_lt.mpr h2)⟩,
          ⟨fun _ => h2, fun _ => rfl⟩⟩

/-- Claim C2 witness: the amended statement evaluated on the singleton list
`[1/2]`, whose first distance is below the HIGH threshold. -/
theorem C2_first_distance_thresholds_witness :
    ([mkRat 1 2] : List ℚ) ≠ [] ∧
    (((evaluate_retrieval [mkRat 1 2] 3 false).confidence = "HIGH" ↔
        ([mkRat 1 2] : List ℚ).headI < HIGH_CONFIDENCE_THRESHOLD) ∧
     ((evaluate_retrieval [mkRat 1 2] 3 false).confidence = "MEDIUM" ↔
        HIGH_CONFIDENCE_THRESHOLD ≤ ([mkRat 1 2] : List ℚ).headI ∧
          ([mkRat 1 2] : List ℚ).headI < MEDIUM_CONFIDENCE_THRESHOLD) ∧
     ((evaluate_retrieval [mkRat 1 2] 3 false).confidence = "LOW" ↔
        MEDIUM_CONFIDENCE_THRESHOLD ≤ ([mkRat 1 2] : List ℚ).headI)) :=
  ⟨by decide, C2_first_distance_thresholds [mkRat 1 2] (by decide)⟩

/-! ### C5 -/

/-- Claim C5: for the empty distance sequence the evaluator returns LOW
confidence and score exactly `1`, with the fixed "no results" rationale, for
any `num_results` and `use_average` arguments — defined behavior, not an
error. -/
theorem C5_empty_distances (num_results : Int) (use_average : Bool) :
    evaluate_retrieval [] num_results use_average =
      { confidence := "LOW", score := 1, rationale := "No results found in database" } :=
  rfl

/-! ### C6 -/

/-- Claim C6: for every session and target state, `transition` returns `false`
and leaves the session (in particular `current_state`) unchanged when the pair
`(current_state, target)` is not in the transition table, and commits the
target and returns `true` when it is; no exception is possible since the
operation is a total function. -/
theorem C6_transition_table (s : SessionState) (target : AgentState) :
    (target ∉ VALID_TRANSITIONS s.current_state →
        StateMachine.transition s target = (false, s)) ∧
    (target ∈ VALID_TRANSITIONS s.current_state →
        StateMachine.transition s target = (true, { s with current_state := target })) := by
  constructor
  · intro h
    simp [StateMachine.transition, can_transition, h]
  · intro h
    simp [StateMachine.transition, can_transition, h, SessionState.transition_state]

/-- Claim C6 witness: from the fresh `IDLE` session, the pair
`(IDLE, COMPLETE)` is absent from the table and is rejected without a state
change, while `(IDLE, RETRIEVING)` is present and commits. -/
theorem C6_transition_table_witness :
    AgentState.COMPLETE ∉ VALID_TRANSITIONS sessionA.current_state ∧
    StateMachine.transition sessionA AgentState.COMPLETE = (false, sessionA) ∧
    AgentState.RETRIEVING ∈ VALID_TRANSITIONS sessionA.current_state ∧
    StateMachine.transition sessionA AgentState.RETRIEVING =
      (true, { sessionA with current_state := AgentState.RETRIEVING }) :=
  ⟨by decide, (C6_transition_table sessionA AgentState.COMPLETE).1 (by decide),
   by decide, (C6_transition_table sessionA AgentState.RETRIEVING).2 (by decide)⟩

/-! ### C8 -/

/-- Claim C8: `get_context` and the session summary are read-only — the
session they return alongside their payload agrees with the input session on
`conversation_history`, `turn_count`, `current_state`, `session_id` and
`created_at`. -/
theorem C8_read_only (s : SessionState) :
    (SessionState.get_context s).2.conversation_history = s.conversation_history ∧
    (SessionState.get_context s).2.turn_count = s.turn_count ∧
    (SessionState.get_context s).2.current_state = s.current_state ∧
    (SessionState.get_context s).2.session_id = s.session_id ∧
    (SessionState.get_context s).2.created_at = s.created_at ∧
    (get_session_summary s).2.conversation_history = s.conversation_history ∧
    (get_session_summary s).2.turn_count = s.turn_count ∧
    (get_session_summary s).2.current_state = s.current_state ∧
    (get_session_summary s).2.session_id = s.session_id ∧
    (get_session_summary s).2.created_at = s.created_at :=
  ⟨rfl, rfl, rfl, rfl, rfl, rfl, rfl, rfl, rfl, rfl⟩

/-! ### C9 -/

/-- Claim C9: the transition relation is irreflexive — no state, including
`ERROR` and `COMPLETE`, permits a self-loop — so a transition request to the
state the machine is already in returns `false` and changes nothing. -/
theorem C9_irreflexive (s : SessionState) :
    (∀ a : AgentState, can_transition a a = false) ∧
    StateMachine.transition s s.current_state = (false, s) := by
  have h : ∀ a : AgentState, can_transition a a = false := by
    intro a
    cases a <;> rfl
  refine ⟨h, ?_⟩
  simp [StateMachine.transition, h s.current_state]

/-! ### C10 -/

/-- Claim C10: with `use_average` true and a non-empty distance list shorter
than `top_k` (under the precondition `top_k ≥ 1`), the score is the arithmetic
mean of all available distances — the divisor is `min(length, top_k)`, which
here equals the length, not `top_k`. -/
theorem C10_average_divisor (d : List ℚ) (top_k : Int) (hk : 1 ≤ top_k)
    (hne : d ≠ []) (hshort : (d.length : Int) < top_k) :
    (evaluate_retrieval d top_k true).score = d.sum / (d.length : ℚ) := by
  rw [evaluate_retrieval_score_average d top_k hne]
  have h0 : (0 : Int) ≤ top_k := le_trans (by decide) hk
  have hslice : pyTakeSlice d top_k = d := by
    rw [pyTakeSlice, if_pos h0]
    apply List.take_of_length_le
    omega
  have hmin : min (d.length : Int) top_k = (d.length : Int) := min_eq_left hshort.le
  rw [hslice, hmin]
  norm_cast

/-- Claim C10 witness: the two distances `1/2, 3/4` with `top_k = 3` — the
score is their mean, `(1/2 + 3/4) / 2`. -/
theorem C10_average_divisor_witness :
    (1 : Int) ≤ 3 ∧ ([mkRat 1 2, mkRat 3 4] : List ℚ) ≠ [] ∧
    ((([mkRat 1 2, mkRat 3 4] : List ℚ).length : Int) < 3) ∧
    (evaluate_retrieval [mkRat 1 2, mkRat 3 4] 3 true).score =
      ([mkRat 1 2, mkRat 3 4] : List ℚ).sum /
        ((([mkRat 1 2, mkRat 3 4] : List ℚ).length : ℚ)) :=
  ⟨by decide, by decide, by decide,
   C10_average_divisor [mkRat 1 2, mkRat 3 4] 3 (by decide) (by decide) (by decide)⟩

/-! ### C1 -/

/-- Claim C1: the local-index answer is used iff the evaluator returned HIGH
confidence and at least one document was retrieved; then the answer is the
best-ranked (first) document verbatim and `web_search_used` is false, and the
turn never enters `SEARCHING_WEB`; in every other combination the fallback
path runs, visiting `SEARCHING_WEB`. -/
theorem C1_routing (s : SessionState) (q : String) (o : QueryOracle) :
    ((evaluate_retrieval o.distances 3 false).confidence = "HIGH" ∧ o.documents ≠ [] →
        (process_query s q o).response.answer = o.documents.headI ∧
        (process_query s q o).response.web_search_used = false ∧
        (process_query s q o).response.source = "Local Database" ∧
        AgentState.SEARCHING_WEB ∉
          List.map ConversationTurn.agent_state (process_query s q o).turn_trace) ∧
    (¬((evaluate_retrieval o.distances 3 false).confidence = "HIGH" ∧ o.documents ≠ []) →
        AgentState.SEARCHING_WEB ∈
          List.map ConversationTurn.agent_state (process_query s q o).turn_trace) := by
  constructor
  · intro h
    simp only [process_query]
    rw [if_pos h]
    refine ⟨rfl, rfl, rfl, ?_⟩
    simp only [finalize_turn]
    simp [List.mem_cons]
  · intro h
    simp only [process_query]
    rw [if_neg h]
    by_cases hs : o.search.success ∧ o.search.results ≠ []
    · rw [if_pos hs]
      simp only [finalize_turn]
      simp [List.mem_cons]
    · rw [if_neg hs]
      simp only [finalize_turn]
      simp [List.mem_cons]

/-- Claim C1 witness: the local branch on `oracleLocal` (HIGH confidence, one
document) and the fallback branch on `oracleWebOk` (LOW confidence). -/
theorem C1_routing_witness :
    ((evaluate_retrieval oracleLocal.distances 3 false).confidence = "HIGH" ∧
        oracleLocal.documents ≠ []) ∧
    ((process_query sessionA "qA" oracleLocal).response.answer = oracleLocal.documents.headI ∧
      (process_query sessionA "qA" oracleLocal).response.web_search_used = false ∧
      (process_query sessionA "qA" oracleLocal).response.source = "Local Database" ∧
      AgentState.SEARCHING_WEB ∉
        List.map ConversationTurn.agent_state
          (process_query sessionA "qA" oracleLocal).turn_trace) ∧
    (¬((evaluate_retrieval oracleWebOk.distances 3 false).confidence = "HIGH" ∧
        oracleWebOk.documents ≠ [])) ∧
    AgentState.SEARCHING_WEB ∈
      List.map ConversationTurn.agent_state
        (process_query sessionA "qB" oracleWebOk).turn_trace :=
  ⟨⟨by decide, by decide⟩,
   (C1_routing sessionA "qA" oracleLocal).1 ⟨by decide, by decide⟩,
   by decide,
   (C1_routing sessionA "qB" oracleWebOk).2 (by decide)⟩

/-! ### C3 -/

/-- Claim C3 counterexample: on a HIGH-confidence run, the snapshot at index 4
of the turn trace (after line 56 of `lib/agents.py`) is still in the
`EVALUATING` phase, well before `COMPLETE`, yet its `confidence` field is
already set. -/
theorem C3_counterexample :
    (process_query sessionA "q" oracleLocal).turn_trace.getD 4 default ∈
      (process_query sessionA "q" oracleLocal).turn_trace ∧
    ((process_query sessionA "q" oracleLocal).turn_trace.getD 4 default).agent_state =
      AgentState.EVALUATING ∧
    ((process_query sessionA "q" oracleLocal).turn_trace.getD 4 default).confidence =
      some "HIGH" := by
  decide

/-- Claim C3 (amended): along every `process_query` run, `final_answer` and
`source` stay unset on every snapshot that has not reached `COMPLETE`;
`confidence` stays unset through the `IDLE` and `RETRIEVING` phases and is set
during evaluation, before `COMPLETE`; and each of the three fields, once set,
never changes in any later snapshot. -/
theorem C3_lifecycle (s : SessionState) (q : String) (o : QueryOracle) :
    (∀ t ∈ (process_query s q o).turn_trace,
        t.agent_state ≠ AgentState.COMPLETE → t.final_answer = none ∧ t.source = none) ∧
    (∀ t ∈ (process_query s q o).turn_trace,
        t.agent_state = AgentState.IDLE ∨ t.agent_state = AgentState.RETRIEVING →
          t.confidence = none) ∧
    List.Chain' fieldStable (process_query s q o).turn_trace := by
  simp only [process_query]
  by_cases h1 : (evaluate_retrieval o.distances 3 false).confidence = "HIGH" ∧
      o.documents ≠ []
  · rw [if_pos h1]
    simp only [finalize_turn, List.cons_append, List.nil_append]
    refine ⟨?_, ?_, ?_⟩
    · intro t ht
      simp only [List.mem_cons, List.not_mem_nil, or_false] at ht
      rcases ht with rfl | rfl | rfl | rfl | rfl | rfl | rfl | rfl | rfl | rfl | rfl <;>
        first
          | exact fun _ => ⟨rfl, rfl⟩
          | exact fun hst => absurd rfl hst
    · intro t ht
      simp only [List.mem_cons, List.not_mem_nil, or_false] at ht
      rcases ht with rfl | rfl | rfl | rfl | rfl | rfl | rfl | rfl | rfl | rfl | rfl <;>
        first
          | exact fun _ => rfl
          | exact fun hor => Or.elim hor
              (fun hh => AgentState.noConfusion hh) (fun hh => AgentState.noConfusion hh)
    · simp only [List.chain'_cons, fieldStable]
      repeat' apply And.intro
      all_goals first
        | trivial
        | exact List.chain'_singleton _
        | exact fun _ => True.intro
        | exact fun hne => absurd rfl hne
  · rw [if_neg h1]
    by_cases hs : o.search.success ∧ o.search.results ≠ []
    · rw [if_pos hs]
      simp only [finalize_turn, List.cons_append, List.nil_append]
      refine ⟨?_, ?_, ?_⟩
      · intro t ht
        simp only [List.mem_cons, List.not_mem_nil, or_false] at ht
        rcases ht with rfl | rfl | rfl | rfl | rfl | rfl | rfl | rfl | rfl | rfl | rfl | rfl <;>
          first
            | exact fun _ => ⟨rfl, rfl⟩
            | exact fun hst => absurd rfl hst
      · intro t ht
        simp only [List.mem_cons, List.not_mem_nil, or_false] at ht
        rcases ht with rfl | rfl | rfl | rfl | rfl | rfl | rfl | rfl | rfl | rfl | rfl | rfl <;>
          first
            | exact fun _ => rfl
            | exact fun hor => Or.elim hor
                (fun hh => AgentState.noConfusion hh) (fun hh => AgentState.noConfusion hh)
      · simp only [List.chain'_cons, fieldStable]
        repeat' apply And.intro
        all_goals first
          | trivial
          | exact List.chain'_singleton _
          | exact fun _ => True.intro
          | exact fun hne => absurd rfl hne
    · rw [if_neg hs]
      simp only [finalize_turn, List.cons_append, List.nil_append]
      refine ⟨?_, ?_, ?_⟩
      · intro t ht
        simp only [List.mem_cons, List.not_mem_nil, or_false] at ht
        rcases ht with rfl | rfl | rfl | rfl | rfl | rfl | rfl | rfl | rfl | rfl | rfl | rfl <;>
          first
            | exact fun _ => ⟨rfl, rfl⟩
            | exact fun hst => absurd rfl hst
      · intro t ht
        simp only [List.mem_cons, List.not_mem_nil, or_false] at ht
        rcases ht with rfl | rfl | rfl | rfl | rfl | rfl | rfl | rfl | rfl | rfl | rfl | rfl <;>
          first
            | exact fun _ => rfl
            | exact fun hor => Or.elim hor
                (fun hh => AgentState.noConfusion hh) (fun hh => AgentState.noConfusion hh)
      · simp only [List.chain'_cons, fieldStable]
        repeat' apply And.intro
        all_goals first
          | trivial
          | exact List.chain'_singleton _
          | exact fun _ => True.intro
          | exact fun hne => absurd rfl hne

/-- Claim C3 witness: on a concrete run, the initial snapshot is pre-`COMPLETE`
with `final_answer` and `source` unset, and the whole trace satisfies the
stability chain. -/
theorem C3_lifecycle_witness :
    (process_query sessionA "q" oracleLocal).turn_trace.getD 0 default ∈
      (process_query sessionA "q" oracleLocal).turn_trace ∧
    ((process_query sessionA "q" oracleLocal).turn_trace.getD 0 default).agent_state ≠
      AgentState.COMPLETE ∧
    (((process_query sessionA "q" oracleLocal).turn_trace.getD 0 default).final_answer = none ∧
      ((process_query sessionA "q" oracleLocal).turn_trace.getD 0 default).source = none) ∧
    List.Chain' fieldStable (process_query sessionA "q" oracleLocal).turn_trace :=
  ⟨by decide, by decide,
   (C3_lifecycle sessionA "q" oracleLocal).1 _ (by decide) (by decide),
   (C3_lifecycle sessionA "q" oracleLocal).2.2⟩

/-! ### C4 -/

/-- Claim C4 counterexample: with empty retrieval and a failed web search the
turn ends with the "no information found" sentinel and `web_search_used`
false, but the source string is `"No Source"`, not `"none"`. -/
theorem C4_counterexample :
    (process_query sessionA "q" oracleNoResults).response.answer =
      "No information found in local database or web search." ∧
    (process_query sessionA "q" oracleNoResults).response.web_search_used = false ∧
    (process_query sessionA "q" oracleNoResults).response.source = "No Source" ∧
    (process_query sessionA "q" oracleNoResults).response.source ≠ "none" := by
  decide

/-- Claim C4 (amended): whenever the fallback path runs (the routing
conjunction fails) and the web search fails or returns no results, the final
answer is the fixed "no information found" sentinel, the source is the string
`"No Source"`, and `web_search_used` is false. -/
theorem C4_fallback_no_results (s : SessionState) (q : String) (o : QueryOracle)
    (hroute : ¬((evaluate_retrieval o.distances 3 false).confidence = "HIGH" ∧
        o.documents ≠ []))
    (hsearch : o.search.success = false ∨ o.search.results = []) :
    (process_query s q o).response.answer =
      "No information found in local database or web search." ∧
    (process_query s q o).response.source = "No Source" ∧
    (process_query s q o).response.web_search_used = false := by
  have hs : ¬(o.search.success ∧ o.search.results ≠ []) := by
    rcases hsearch with h | h
    · intro hc
      rw [h] at hc
      exact absurd hc.1 (by decide)
    · intro hc
      exact hc.2 h
  simp only [process_query]
  rw [if_neg hroute, if_neg hs]
  exact ⟨rfl, rfl, rfl⟩

/-- Claim C4 witness: the amended statement on the oracle where retrieval is
empty and the web search reports failure. -/
theorem C4_fallback_no_results_witness :
    (¬((evaluate_retrieval oracleNoResults.distances 3 false).confidence = "HIGH" ∧
        oracleNoResults.documents ≠ [])) ∧
    (oracleNoResults.search.success = false ∨ oracleNoResults.search.results = []) ∧
    ((process_query sessionA "q2" oracleNoResults).response.answer =
        "No information found in local database or web search." ∧
      (process_query sessionA "q2" oracleNoResults).response.source = "No Source" ∧
      (process_query sessionA "q2" oracleNoResults).response.web_search_used = false) :=
  ⟨by decide, by decide,
   C4_fallback_no_results sessionA "q2" oracleNoResults (by decide) (by decide)⟩

/-! ### C7 -/

/-- One `process_query` call from an `IDLE` session returns the session to
`IDLE`, increments `turn_count` by one, and appends exactly one turn whose
`turn_id` is the new `turn_count`. -/
theorem process_query_session_step (s : SessionState) (q : String) (o : QueryOracle)
    (h : s.current_state = AgentState.IDLE) :
    ∃ t : ConversationTurn,
      (process_query s q o).session =
        { s with
          current_state := AgentState.IDLE
          conversation_history := s.conversation_history ++ [t]
          turn_count := s.turn_count + 1 } ∧
      t.turn_id = s.turn_count + 1 := by
  obtain ⟨sid, created, cs, hist, tc⟩ := s
  simp only at h
  subst h
  by_cases h1 : (evaluate_retrieval o.distances 3 false).confidence = "HIGH" ∧
      o.documents ≠ []
  · simp only [process_query]
    rw [if_pos h1]
    exact ⟨_, rfl, rfl⟩
  · by_cases hs : o.search.success ∧ o.search.results ≠ []
    · simp only [process_query]
      rw [if_neg h1, if_pos hs]
      exact ⟨_, rfl, rfl⟩
    · simp only [process_query]
      rw [if_neg h1, if_neg hs]
      exact ⟨_, rfl, rfl⟩

/-- The ledger invariant is preserved by any sequence of `process_query`
calls: starting from `IDLE` with turn ids `1..turn_count`, the session ends in
`IDLE` with the turn counter advanced by the number of calls and the ids still
an initial range. -/
theorem run_queries_invariant (qs : List (String × QueryOracle)) (s : SessionState)
    (h1 : s.current_state = AgentState.IDLE)
    (h2 : s.conversation_history.map ConversationTurn.turn_id =
      List.range' 1 s.turn_count) :
    (run_queries s qs).current_state = AgentState.IDLE ∧
    (run_queries s qs).turn_count = s.turn_count + qs.length ∧
    (run_queries s qs).conversation_history.map ConversationTurn.turn_id =
      List.range' 1 (s.turn_count + qs.length) := by
  induction qs generalizing s with
  | nil => exact ⟨h1, rfl, h2⟩
  | cons q rest ih =>
    simp only [run_queries]
    obtain ⟨t, hsess, htid⟩ := process_query_session_step s q.1 q.2 h1
    have ha : (process_query s q.1 q.2).session.current_state = AgentState.IDLE := by
      rw [hsess]
    have hb : (process_query s q.1 q.2).session.turn_count = s.turn_count + 1 := by
      rw [hsess]
    have hc : (process_query s q.1 q.2).session.conversation_history.map
        ConversationTurn.turn_id = List.range' 1 (s.turn_count + 1) := by
      rw [hsess]
      show (s.conversation_history ++ [t]).map ConversationTurn.turn_id = _
      rw [List.map_append, h2, List.range'_concat]
      simp [htid, Nat.add_comm]
    have h2' : (process_query s q.1 q.2).session.conversation_history.map
        ConversationTurn.turn_id =
        List.range' 1 (process_query s q.1 q.2).session.turn_count := by
      rw [hb, hc]
    obtain ⟨ia, ib, ic⟩ := ih (process_query s q.1 q.2).session ha h2'
    refine ⟨ia, ?_, ?_⟩
    · rw [ib, hb]
      simp only [List.length_cons]
      omega
    · rw [ic, hb]
      congr 1
      simp only [List.length_cons]
      omega

/-- Claim C7: after any number `k` of sequential `process_query` calls on a
fresh session, `turn_count` is `k`, the history has length `k`, the turn ids
are exactly `1..k` in call order (no gaps, no duplicates), and the session is
back in `IDLE`; since this holds for every call sequence it holds after each
intermediate call as well. -/
theorem C7_session_ledger (qs : List (String × QueryOracle)) (sid created : String) :
    (run_queries (mkSession sid created) qs).turn_count = qs.length ∧
    (run_queries (mkSession sid created) qs).conversation_history.length = qs.length ∧
    (run_queries (mkSession sid created) qs).conversation_history.map
      ConversationTurn.turn_id = List.range' 1 qs.length ∧
    (run_queries (mkSession sid created) qs).current_state = AgentState.IDLE := by
  obtain ⟨h1, h2, h3⟩ := run_queries_invariant qs (mkSession sid created) rfl (by simp [mkSession])
  refine ⟨by simpa [mkSession] using h2, ?_, by simpa [mkSession] using h3, h1⟩
  have hlen := congrArg List.length h3
  simp only [List.length_map] at hlen
  simpa [mkSession] using hlen

end AgenticVideoGame
